import Mathlib

/-!
Verification of the retrieval-augmented question-answering endpoint in
`src/api/index.py` (FastAPI handler `prompt_endpoint`, plus module-level
client initialization).  The Python code is shallowly embedded: metadata
dictionaries become association lists of Python scalar values, the three
external services (embedding, vector search, chat completion) become
injected functions returning `Except`, and `raise HTTPException` becomes
the `Except.error` branch of the endpoint's result.
-/

set_option autoImplicit false

namespace TedRag

/-- A Python scalar value as it can appear in a Pinecone metadata mapping:
a string, an integer, a float (modelled as a rational number), or `None`. -/
inductive PyVal where
  | vstr : String → PyVal
  | vint : Int → PyVal
  | vfloat : Rat → PyVal
  | vnone : PyVal
deriving Repr, DecidableEq

/-- Python `str()` applied to a scalar value.  `str(None)` is the literal
string `"None"`; the textual form of a float is abstracted by `toString`
on the rational (no claim depends on the digits of a float repr). -/
def pyStr : PyVal → String
  | .vstr s => s
  | .vint n => toString n
  | .vfloat q => toString q
  | .vnone => "None"

/-- The decimal value of a list of digit characters, most significant first. -/
def digitsToNat (l : List Char) : Nat :=
  l.foldl (fun a c => a * 10 + (c.toNat - 48)) 0

/-- Every character of the list is a decimal digit. -/
def allDigits (l : List Char) : Bool :=
  l.all Char.isDigit

/-- Parse an unsigned decimal literal (digits, optionally with one decimal
point, at least one digit overall) into a rational. -/
def parseUnsigned (l : List Char) : Option Rat :=
  let intPart := l.takeWhile (· ≠ '.')
  match l.dropWhile (· ≠ '.') with
  | [] =>
    if intPart ≠ [] ∧ allDigits intPart then some (mkRat (digitsToNat intPart) 1) else none
  | '.' :: frac =>
    if (intPart ≠ [] ∨ frac ≠ []) ∧ allDigits intPart ∧ allDigits frac then
      some (mkRat (digitsToNat intPart * 10 ^ frac.length + digitsToNat frac) (10 ^ frac.length))
    else none
  | _ => none

/-- Python `float(s)` on a string, modelled for optionally signed decimal
literals such as `"1200"`, `"1200.0"`, `"-3.5"`, `".5"`; any string outside
that grammar (in particular every non-numeric string) fails, as Python
raises `ValueError`.  Exotic accepted forms of CPython (exponents,
surrounding whitespace, `inf`/`nan`) are outside the model. -/
def parseFloat (s : String) : Option Rat :=
  match s.data with
  | [] => none
  | '-' :: rest => (parseUnsigned rest).map (fun q => -q)
  | '+' :: rest => parseUnsigned rest
  | l => parseUnsigned l

/-- Python `float(x)` on a scalar value: succeeds on ints, floats and
numeric strings, raises (`none`) on `None` and non-numeric strings. -/
def pyFloat : PyVal → Option Rat
  | .vstr s => parseFloat s
  | .vint n => some (mkRat n 1)
  | .vfloat q => some q
  | .vnone => none

/-- Python `int()` on a float: truncation toward zero. -/
def ratTrunc (q : Rat) : Int :=
  if q < 0 then -((-q).floor) else q.floor

/-- A metadata mapping: string keys to Python scalar values. -/
abbrev Meta : Type := List (String × PyVal)

/-- Python `meta.get(k)` with no default: the value at the first matching
key, if any. -/
def metaGet (m : Meta) (k : String) : Option PyVal :=
  (m.find? (fun p => p.1 == k)).map Prod.snd

/-- Python `meta.get(k, d)`: the value at `k`, or the default `d`. -/
def metaGetD (m : Meta) (k : String) (d : PyVal) : PyVal :=
  (metaGet m k).getD d

/-- One record returned by the vector search: a relevance score and a
metadata mapping that may be absent (`None`). -/
structure RMatch where
  score : Rat
  metadata : Option Meta
deriving Repr, DecidableEq

/-- The canonical normalized form of a retrieved match, mirroring the
`ContextItem` pydantic model as the handler actually populates it. -/
structure ContextItem where
  talk_id : String
  title : String
  chunk : String
  score : Rat
  speaker : String
  url : String
  topics : String
  views : Int
  published_date : String
deriving Repr, DecidableEq

/-- The two halves of the augmented prompt. -/
structure AugmentedPrompt where
  System : String
  User : String
deriving Repr, DecidableEq

/-- The endpoint's success payload. -/
structure QueryResponse where
  response : String
  context : List ContextItem
  Augmented_prompt : AugmentedPrompt
deriving Repr, DecidableEq

/-- A raised `HTTPException`: status code and detail string. -/
structure HTTPException where
  status_code : Nat
  detail : String
deriving Repr, DecidableEq

/-- `str(meta.get(k, ''))`: the string coercion of the value at key `k`,
with the empty string when the key is absent. -/
def coercedField (meta : Meta) (k : String) : String :=
  pyStr (metaGetD meta k (PyVal.vstr ""))

/-- The passage-text extraction of the handler: probe `chunk_text`, then
`chunk`, then `text`, keeping the first whose string coercion is
non-empty (each step is `str(meta.get(key, ''))` followed by a Python
truthiness test). -/
def chunkContentOf (meta : Meta) : String :=
  let c1 := coercedField meta "chunk_text"
  if c1 = "" then
    let c2 := coercedField meta "chunk"
    if c2 = "" then coercedField meta "text" else c2
  else c1

/-- The view-count extraction: `int(float(meta.get('views', 0)))` inside
`try`, with `views = 0` on any exception. -/
def viewsOf (meta : Meta) : Int :=
  match pyFloat (metaGetD meta "views" (PyVal.vint 0)) with
  | some q => ratTrunc q
  | none => 0

/-- The per-match metadata normalization of the handler body (steps 1 and
2 of the loop), producing one fully populated context item. -/
def normalizeMeta (score : Rat) (meta : Meta) : ContextItem :=
  { talk_id := pyStr (metaGetD meta "talk_id" (PyVal.vstr "Unknown"))
    title := pyStr (metaGetD meta "title" (PyVal.vstr "Unknown"))
    chunk := chunkContentOf meta
    score := score
    speaker := pyStr (metaGetD meta "speaker" (PyVal.vstr "Unknown"))
    url := pyStr (metaGetD meta "url" (PyVal.vstr ""))
    topics := pyStr (metaGetD meta "topics" (PyVal.vstr ""))
    views := viewsOf meta
    published_date := pyStr (metaGetD meta "published_date" (PyVal.vstr "")) }

/-- The rich context block appended to `context_text` for one normalized
match (step 3 of the loop, the f-string literal). -/
def itemText (ci : ContextItem) : String :=
  "\n### Source Document\nTitle: " ++ ci.title ++
  "\nSpeaker: " ++ ci.speaker ++
  "\nDate: " ++ ci.published_date ++
  "\nViews: " ++ toString ci.views ++
  "\nLink: " ++ ci.url ++
  "\nContent: " ++ ci.chunk ++ "\n"

/-- One iteration of the handler's `for match in search_results` loop:
`if not match.metadata: continue` skips matches whose metadata is `None`
or an empty dict; otherwise the normalized item is appended to both the
context text and the response list. -/
def buildContextStep (acc : String × List ContextItem) (m : RMatch) :
    String × List ContextItem :=
  match m.metadata with
  | none => acc
  | some meta =>
    if meta.isEmpty then acc
    else
      let ci := normalizeMeta m.score meta
      (acc.1 ++ itemText ci, acc.2 ++ [ci])

/-- Section C of the handler: fold the loop over the match list starting
from `context_text = ""` and `retrieved_chunks = []`. -/
def buildContext (ms : List RMatch) : String × List ContextItem :=
  ms.foldl buildContextStep ("", [])

/-- The matches that survive the `if not match.metadata: continue` guard,
each normalized, in retrieval order. -/
def normalizedItems (ms : List RMatch) : List ContextItem :=
  ms.filterMap (fun m =>
    match m.metadata with
    | none => none
    | some meta => if meta.isEmpty then none else some (normalizeMeta m.score meta))

/-- The concatenation of the per-item context blocks, in order: the value
`context_text` takes when the surviving matches normalize to `items`. -/
def concatTexts : List ContextItem → String
  | [] => ""
  | ci :: rest => itemText ci ++ concatTexts rest

/-- The fixed system prompt string of the handler (section D). -/
def system_prompt : String :=
  "You are a TED Talk assistant that answers questions strictly and only based on the TED dataset context provided to you (metadata and transcript passages). You must not use any external knowledge, the open internet, or information that is not explicitly contained in the retrieved context. If the answer cannot be determined from the provided context, respond: \"I don\x27t know based on the provided TED data.\" Always explain your answer using the given context, quoting or paraphrasing the relevant transcript or metadata when helpful."

/-- The fixed text of the user prompt before the interpolated context. -/
def userPromptHead : String :=
  "Analyze the provided TED Talk context chunks to answer the user\x27s question.\n\nDetermine the nature of the question (Fact, List, Summary, or Recommendation) and answer accordingly.\n\nContext:\n"

/-- The fixed text of the user prompt between the context and the question. -/
def userPromptMid : String := "\n\nQuestion: "

/-- The fixed text of the user prompt after the interpolated question. -/
def userPromptTail : String := "\nAnswer:"

/-- The user prompt f-string of the handler (section D), as a function of
the assembled context text and the question. -/
def userPromptOf (context_text question : String) : String :=
  userPromptHead ++ context_text ++ userPromptMid ++ question ++ userPromptTail

/-- The Pinecone index handle: its `query` method, taking the embedding
vector and returning the match list, or raising (`Except.error` carries
`str(e)`).  `top_k` and `include_metadata` are fixed at the call site. -/
structure PineconeIndex where
  query : List Rat → Except String (List RMatch)

/-- The OpenAI-style client: `embeddings.create` (returning the first
embedding vector) and `chat.completions.create` (returning the first
choice's message content, which Python may give as `None`); either call
may raise. -/
structure LLMClient where
  embed : String → Except String (List Rat)
  chatComplete : String → String → Except String (Option String)

/-- The index name constant of the module. -/
def INDEX_NAME : String := "ted-rag-index"

/-- Module-level client setup: `index` is constructed from the Pinecone
API key only when the key is present and truthy (a missing or empty
`PINECONE_API_KEY` leaves `index = None`).  `mk` models
`Pinecone(api_key=key).Index(INDEX_NAME)`. -/
def initIndex (api_key_pinecone : Option String) (mk : String → String → PineconeIndex) :
    Option PineconeIndex :=
  match api_key_pinecone with
  | none => none
  | some k => if k = "" then none else some (mk k INDEX_NAME)

/-- The `/api/prompt` handler.  Stages: the `index` guard, embedding
(section A), vector search (section B), context assembly (section C),
prompt construction (section D), and generation (section E).  A `raise
HTTPException(500, d)` is `Except.error ⟨500, d⟩`; a normal return is
`Except.ok`. -/
def prompt_endpoint (index : Option PineconeIndex) (client : LLMClient)
    (question : String) : Except HTTPException QueryResponse :=
  match index with
  | none => .error ⟨500, "Server Error: Pinecone not initialized."⟩
  | some idx =>
    match client.embed question with
    | .error e => .error ⟨500, "Embedding Error: " ++ e⟩
    | .ok q_embed =>
      match idx.query q_embed with
      | .error e => .error ⟨500, "Pinecone Query Error: " ++ e⟩
      | .ok ms =>
        let ctx := buildContext ms
        let user_prompt := userPromptOf ctx.1 question
        let answer :=
          match client.chatComplete system_prompt user_prompt with
          | .ok content =>
            match content with
            | some c => if c = "" then "Error: Model returned empty response." else c
            | none => "Error: Model returned empty response."
          | .error e => "Error generating response: " ++ e
        .ok { response := answer
              context := ctx.2
              Augmented_prompt := { System := system_prompt, User := user_prompt } }

/-- `nee` occurs contiguously inside `hay` (stated on the underlying
character lists). -/
def strContains (hay nee : String) : Prop :=
  ∃ l r, hay.data = l ++ nee.data ++ r

/-- Truncation toward zero is the identity on integers. -/
theorem ratTrunc_intCast (n : Int) : ratTrunc (n : Rat) = n := by
  rw [ratTrunc]
  split
  · rw [← Int.cast_neg, Rat.floor_def']
    simp
  · rw [Rat.floor_def']
    simp

/-- The loop fold from an arbitrary accumulator appends the concatenated
blocks and the normalized items of the remaining matches. -/
theorem foldl_buildContextStep (ms : List RMatch) (s : String) (l : List ContextItem) :
    ms.foldl buildContextStep (s, l) =
      (s ++ concatTexts (normalizedItems ms), l ++ normalizedItems ms) := by
  induction ms generalizing s l with
  | nil => simp [normalizedItems, concatTexts]
  | cons m rest ih =>
    rcases hm : m.metadata with _ | meta
    · simp [buildContextStep, hm, normalizedItems, ih, List.filterMap_cons]
    · by_cases he : meta.isEmpty
      · rw [List.isEmpty_iff] at he
        simp [buildContextStep, hm, he, normalizedItems, ih, List.filterMap_cons, concatTexts]
      · have he2 : ¬ meta = [] := by
          rw [List.isEmpty_iff] at he
          exact he
        simp [buildContextStep, hm, he, he2, normalizedItems, ih, List.filterMap_cons,
          concatTexts, String.append_assoc]

/-- `buildContext` in closed form: the concatenated blocks and the list of
normalized surviving matches. -/
theorem buildContext_eq (ms : List RMatch) :
    buildContext ms = (concatTexts (normalizedItems ms), normalizedItems ms) := by
  have h := foldl_buildContextStep ms "" []
  simpa [buildContext] using h

/-- Each per-item context block is non-empty (it starts with a fixed
header). -/
theorem itemText_length_pos (ci : ContextItem) : 0 < (itemText ci).length := by
  have hl : 0 < ("\n### Source Document\nTitle: ").length := by decide
  rw [itemText]
  simp only [String.length_append]
  omega

/-- The concatenated context block is empty exactly when there are no
normalized items. -/
theorem concatTexts_eq_empty_iff (items : List ContextItem) :
    concatTexts items = "" ↔ items = [] := by
  cases items with
  | nil => simp [concatTexts]
  | cons ci rest =>
    constructor
    · intro h
      have h2 : (concatTexts (ci :: rest)).length = 0 := by rw [h]; rfl
      rw [concatTexts] at h2
      rw [String.length_append] at h2
      have := itemText_length_pos ci
      omega
    · intro h
      exact absurd h (by simp)

/-- Truncation toward zero sends `0` to `0`. -/
theorem ratTrunc_zero : ratTrunc 0 = 0 := by
  simpa using ratTrunc_intCast 0

/-- C4: for every metadata mapping, the view-count extraction never raises:
it accepts integer, float, and numeric-string values (yielding their
truncation), and for any malformed value — a non-numeric string, a null,
or an absent key — it yields view count `0`. -/
theorem views_extraction_lenient (meta : Meta) :
    (metaGet meta "views" = none → viewsOf meta = 0) ∧
    (metaGet meta "views" = some PyVal.vnone → viewsOf meta = 0) ∧
    (∀ s, metaGet meta "views" = some (PyVal.vstr s) → parseFloat s = none →
      viewsOf meta = 0) ∧
    (∀ n, metaGet meta "views" = some (PyVal.vint n) → viewsOf meta = n) ∧
    (∀ q, metaGet meta "views" = some (PyVal.vfloat q) → viewsOf meta = ratTrunc q) ∧
    (∀ s q, metaGet meta "views" = some (PyVal.vstr s) → parseFloat s = some q →
      viewsOf meta = ratTrunc q) := by
  refine ⟨?_, ?_, ?_, ?_, ?_, ?_⟩
  · intro h
    simp [viewsOf, metaGetD, h, pyFloat, Rat.mkRat_one, ratTrunc_zero]
  · intro h
    simp [viewsOf, metaGetD, h, pyFloat]
  · intro s h hs
    simp [viewsOf, metaGetD, h, pyFloat, hs]
  · intro n h
    simp [viewsOf, metaGetD, h, pyFloat, Rat.mkRat_one, ratTrunc_intCast]
  · intro q h
    simp [viewsOf, metaGetD, h, pyFloat]
  · intro s q h hs
    simp [viewsOf, metaGetD, h, pyFloat, hs]

/-- Witness for C4 at concrete inputs: a non-numeric string, a null, an
absent key (each giving `0`), and a numeric string (giving its value). -/
theorem views_extraction_lenient_witness :
    viewsOf [("views", PyVal.vstr "oops")] = 0 ∧
    viewsOf [("views", PyVal.vnone)] = 0 ∧
    viewsOf [("talk_id", PyVal.vstr "5")] = 0 ∧
    viewsOf [("views", PyVal.vstr "1200.0")] = 1200 := by
  refine ⟨?_, ?_, ?_, ?_⟩
  · exact (views_extraction_lenient _).2.2.1 "oops" rfl (by decide)
  · exact (views_extraction_lenient _).2.1 rfl
  · exact (views_extraction_lenient _).1 rfl
  · have h := (views_extraction_lenient [("views", PyVal.vstr "1200.0")]).2.2.2.2.2
      "1200.0" (mkRat 1200 1) rfl (by decide)
    rw [h]
    decide

/-- C5: the passage text probes `chunk_text`, then `chunk`, then `text`,
in that fixed order, and keeps the first whose (string-coerced) value is
non-empty; when every candidate is absent or coerces to the empty string
the passage text is empty (the last conjunct records that an absent key
coerces to the empty string). -/
theorem passage_text_priority (meta : Meta) :
    (coercedField meta "chunk_text" ≠ "" →
      chunkContentOf meta = coercedField meta "chunk_text") ∧
    (coercedField meta "chunk_text" = "" → coercedField meta "chunk" ≠ "" →
      chunkContentOf meta = coercedField meta "chunk") ∧
    (coercedField meta "chunk_text" = "" → coercedField meta "chunk" = "" →
      chunkContentOf meta = coercedField meta "text") ∧
    (coercedField meta "chunk_text" = "" → coercedField meta "chunk" = "" →
      coercedField meta "text" = "" → chunkContentOf meta = "") ∧
    (∀ k, metaGet meta k = none → coercedField meta k = "") := by
  refine ⟨?_, ?_, ?_, ?_, ?_⟩
  · intro h1
    simp [chunkContentOf, h1]
  · intro h1 h2
    simp [chunkContentOf, h1, h2]
  · intro h1 h2
    simp [chunkContentOf, h1, h2]
  · intro h1 h2 h3
    simp [chunkContentOf, h1, h2, h3]
  · intro k h
    simp [coercedField, metaGetD, h, pyStr]

/-- Witness for C5: the primary key wins when present and non-empty, the
fallback key is used when the primary is absent, and an all-absent mapping
yields the empty string. -/
theorem passage_text_priority_witness :
    chunkContentOf [("chunk_text", PyVal.vstr "a"), ("chunk", PyVal.vstr "b")] = "a" ∧
    chunkContentOf [("chunk", PyVal.vstr "b"), ("text", PyVal.vstr "c")] = "b" ∧
    chunkContentOf [("title", PyVal.vstr "t")] = "" := by
  refine ⟨?_, ?_, ?_⟩
  · exact (passage_text_priority _).1 (by decide)
  · exact (passage_text_priority _).2.1 (by decide) (by decide)
  · exact (passage_text_priority _).2.2.2.1 (by decide) (by decide) (by decide)

/-- C10: a string-field key bound to a null value is coerced with `str()`
before any emptiness or fallback logic, so it yields the literal string
`"None"`; the documented fallbacks (`"Unknown"`, the empty string) apply
only when the key is absent from the mapping. -/
theorem null_valued_fields_become_None (score : Rat) (meta : Meta) :
    (metaGet meta "talk_id" = some PyVal.vnone →
      (normalizeMeta score meta).talk_id = "None") ∧
    (metaGet meta "title" = some PyVal.vnone →
      (normalizeMeta score meta).title = "None") ∧
    (metaGet meta "speaker" = some PyVal.vnone →
      (normalizeMeta score meta).speaker = "None") ∧
    (metaGet meta "chunk_text" = some PyVal.vnone →
      (normalizeMeta score meta).chunk = "None") ∧
    (metaGet meta "url" = some PyVal.vnone → (normalizeMeta score meta).url = "None") ∧
    (metaGet meta "talk_id" = none → (normalizeMeta score meta).talk_id = "Unknown") ∧
    (metaGet meta "title" = none → (normalizeMeta score meta).title = "Unknown") ∧
    (metaGet meta "speaker" = none → (normalizeMeta score meta).speaker = "Unknown") ∧
    (metaGet meta "url" = none → (normalizeMeta score meta).url = "") := by
  refine ⟨?_, ?_, ?_, ?_, ?_, ?_, ?_, ?_, ?_⟩ <;> intro h <;>
    simp [normalizeMeta, chunkContentOf, coercedField, metaGetD, h, pyStr]

/-- Witness for C10: a null title yields the literal `"None"`, while an
absent title yields the documented `"Unknown"` fallback. -/
theorem null_valued_fields_become_None_witness :
    (normalizeMeta 1 [("title", PyVal.vnone)]).title = "None" ∧
    (normalizeMeta 1 [("speaker", PyVal.vstr "x")]).title = "Unknown" := by
  constructor
  · exact (null_valued_fields_become_None 1 _).2.1 rfl
  · exact (null_valued_fields_become_None 1 _).2.2.2.2.2.2.1 rfl

/-- C6: a match with absent (`None`) or empty metadata is skipped entirely
— removing it changes neither the context text nor the returned list —
and the normalized context list is never longer than the input match
list. -/
theorem empty_metadata_skipped (pre post : List RMatch) (m : RMatch)
    (h : m.metadata = none ∨ m.metadata = some []) :
    buildContext (pre ++ m :: post) = buildContext (pre ++ post) ∧
    ∀ ms : List RMatch, (buildContext ms).2.length ≤ ms.length := by
  constructor
  · rcases h with h | h <;>
      simp [buildContext, List.foldl_append, buildContextStep, h]
  · intro ms
    rw [buildContext_eq]
    simpa [normalizedItems] using List.length_filterMap_le
      (fun m => match m.metadata with
        | none => none
        | some meta => if meta.isEmpty then none else some (normalizeMeta m.score meta)) ms

/-- Witness for C6: dropping a metadata-less match from a concrete
two-match list leaves the built context unchanged, and the normalized
list is at most as long as the input. -/
theorem empty_metadata_skipped_witness :
    buildContext [⟨1, some [("title", PyVal.vstr "T")]⟩, ⟨2, none⟩] =
      buildContext [⟨1, some [("title", PyVal.vstr "T")]⟩] ∧
    (buildContext [⟨1, some [("title", PyVal.vstr "T")]⟩, ⟨2, none⟩]).2.length ≤ 2 := by
  have h := empty_metadata_skipped [⟨1, some [("title", PyVal.vstr "T")]⟩] []
    ⟨2, none⟩ (Or.inl rfl)
  exact ⟨h.1, h.2 _⟩

/-- C8: the assembled context text is the empty string exactly when the
normalized context list is empty. -/
theorem context_text_empty_iff (ms : List RMatch) :
    (buildContext ms).1 = "" ↔ (buildContext ms).2 = [] := by
  rw [buildContext_eq]
  exact concatTexts_eq_empty_iff _

/-- C9: the user half of the augmented prompt contains the question text
and the assembled context text verbatim as substrings. -/
theorem user_prompt_contains (context_text question : String) :
    strContains (userPromptOf context_text question) question ∧
    strContains (userPromptOf context_text question) context_text := by
  constructor
  · refine ⟨(userPromptHead ++ context_text ++ userPromptMid).data, userPromptTail.data, ?_⟩
    simp [userPromptOf, String.data_append, List.append_assoc]
  · refine ⟨userPromptHead.data, (userPromptMid ++ question ++ userPromptTail).data, ?_⟩
    simp [userPromptOf, String.data_append, List.append_assoc]

/-- C1: when the generation call raises, the endpoint does not abort: it
returns a normal (`ok`, i.e. HTTP 200) response whose answer is the
visible error string (which contains "Error generating response"), with
the context list and augmented prompt exactly as assembled before the
failure. -/
theorem generation_failure_still_200 (idx : PineconeIndex) (client : LLMClient)
    (question : String) (v : List Rat) (ms : List RMatch) (e : String)
    (h1 : client.embed question = .ok v)
    (h2 : idx.query v = .ok ms)
    (h3 : client.chatComplete system_prompt
      (userPromptOf (buildContext ms).1 question) = .error e) :
    prompt_endpoint (some idx) client question =
      .ok ⟨"Error generating response: " ++ e, (buildContext ms).2,
        ⟨system_prompt, userPromptOf (buildContext ms).1 question⟩⟩ ∧
    strContains ("Error generating response: " ++ e) "Error generating response" := by
  constructor
  · simp [prompt_endpoint, h1, h2, h3]
  · refine ⟨[], (": ").data ++ e.data, ?_⟩
    have hsplit : ("Error generating response: ").data =
        ("Error generating response").data ++ (": ").data := by decide
    simp [String.data_append, hsplit, List.append_assoc]

/-- Witness for C1: with a concrete index and a client whose generation
call raises `"boom"`, the endpoint returns 200 with the error text as
answer and the assembled (here empty) context and prompt. -/
theorem generation_failure_still_200_witness :
    prompt_endpoint (some ⟨fun _ => .ok []⟩)
        ⟨fun _ => .ok [], fun _ _ => .error "boom"⟩ "q" =
      .ok ⟨"Error generating response: boom", [],
        ⟨system_prompt, userPromptOf "" "q"⟩⟩ :=
  (generation_failure_still_200 ⟨fun _ => .ok []⟩
    ⟨fun _ => .ok [], fun _ _ => .error "boom"⟩ "q" [] [] "boom" rfl rfl rfl).1

/-- C2: a raising embedding call aborts the pipeline with a 500 whose
detail starts with "Embedding Error" and contains the underlying error,
and a raising search call aborts with a 500 whose detail starts with
"Pinecone Query Error" and contains the underlying error. -/
theorem stage12_failures_abort (idx : PineconeIndex) (client : LLMClient)
    (question e : String) :
    (client.embed question = .error e →
      prompt_endpoint (some idx) client question =
        .error ⟨500, "Embedding Error: " ++ e⟩ ∧
      strContains ("Embedding Error: " ++ e) "Embedding Error" ∧
      strContains ("Embedding Error: " ++ e) e) ∧
    (∀ v, client.embed question = .ok v → idx.query v = .error e →
      prompt_endpoint (some idx) client question =
        .error ⟨500, "Pinecone Query Error: " ++ e⟩ ∧
      strContains ("Pinecone Query Error: " ++ e) "Pinecone Query Error" ∧
      strContains ("Pinecone Query Error: " ++ e) e) := by
  constructor
  · intro h
    refine ⟨by simp [prompt_endpoint, h], ?_, ?_⟩
    · refine ⟨[], (": ").data ++ e.data, ?_⟩
      have hsplit : ("Embedding Error: ").data =
          ("Embedding Error").data ++ (": ").data := by decide
      simp [String.data_append, hsplit, List.append_assoc]
    · exact ⟨("Embedding Error: ").data, [], by simp [String.data_append]⟩
  · intro v h1 h2
    refine ⟨by simp [prompt_endpoint, h1, h2], ?_, ?_⟩
    · refine ⟨[], (": ").data ++ e.data, ?_⟩
      have hsplit : ("Pinecone Query Error: ").data =
          ("Pinecone Query Error").data ++ (": ").data := by decide
      simp [String.data_append, hsplit, List.append_assoc]
    · exact ⟨("Pinecone Query Error: ").data, [], by simp [String.data_append]⟩

/-- Witness for C2: a concrete raising embedding call yields the 500 with
"Embedding Error" detail, and a concrete raising search call yields the
500 with "Pinecone Query Error" detail. -/
theorem stage12_failures_abort_witness :
    prompt_endpoint (some ⟨fun _ => .ok []⟩)
        ⟨fun _ => .error "x", fun _ _ => .ok none⟩ "q" =
      .error ⟨500, "Embedding Error: x"⟩ ∧
    prompt_endpoint (some ⟨fun _ => .error "y"⟩)
        ⟨fun _ => .ok [], fun _ _ => .ok none⟩ "q" =
      .error ⟨500, "Pinecone Query Error: y"⟩ := by
  constructor
  · exact ((stage12_failures_abort ⟨fun _ => .ok []⟩
      ⟨fun _ => .error "x", fun _ _ => .ok none⟩ "q" "x").1 rfl).1
  · exact ((stage12_failures_abort ⟨fun _ => .error "y"⟩
      ⟨fun _ => .ok [], fun _ _ => .ok none⟩ "q" "y").2 [] rfl rfl).1

/-- C3: when the Pinecone credential is missing or empty, no index is
initialized and the endpoint refuses every request with the dedicated
"not initialized" 500, independently of the external services (so no
external call can influence, or be required for, the outcome). -/
theorem missing_credential_not_initialized (key : Option String)
    (mk : String → String → PineconeIndex) (client client2 : LLMClient)
    (question : String) (h : key = none ∨ key = some "") :
    prompt_endpoint (initIndex key mk) client question =
      .error ⟨500, "Server Error: Pinecone not initialized."⟩ ∧
    prompt_endpoint (initIndex key mk) client question =
      prompt_endpoint (initIndex key mk) client2 question := by
  rcases h with h | h <;> subst h <;>
    exact ⟨by simp [initIndex, prompt_endpoint], by simp [initIndex, prompt_endpoint]⟩

/-- Witness for C3: with no API key at all, a concrete request is refused
with the fixed "not initialized" message. -/
theorem missing_credential_not_initialized_witness :
    prompt_endpoint (initIndex none (fun _ _ => ⟨fun _ => .ok []⟩))
        ⟨fun _ => .ok [], fun _ _ => .ok (some "hi")⟩ "q" =
      .error ⟨500, "Server Error: Pinecone not initialized."⟩ :=
  (missing_credential_not_initialized none (fun _ _ => ⟨fun _ => .ok []⟩)
    ⟨fun _ => .ok [], fun _ _ => .ok (some "hi")⟩
    ⟨fun _ => .ok [], fun _ _ => .ok (some "hi")⟩ "q" (Or.inl rfl)).1

/-- C7: when the generation call succeeds but yields an empty or absent
answer, the response field is the fixed empty-response sentinel, which is
neither the empty string nor any instance of the exception-based "Error
generating response" string. -/
theorem empty_generation_sentinel (idx : PineconeIndex) (client : LLMClient)
    (question : String) (v : List Rat) (ms : List RMatch) (content : Option String)
    (h1 : client.embed question = .ok v)
    (h2 : idx.query v = .ok ms)
    (h3 : client.chatComplete system_prompt
      (userPromptOf (buildContext ms).1 question) = .ok content)
    (h4 : content = none ∨ content = some "") :
    prompt_endpoint (some idx) client question =
      .ok ⟨"Error: Model returned empty response.", (buildContext ms).2,
        ⟨system_prompt, userPromptOf (buildContext ms).1 question⟩⟩ ∧
    ("Error: Model returned empty response." : String) ≠ "" ∧
    ∀ e, ("Error: Model returned empty response." : String) ≠
      "Error generating response: " ++ e := by
  refine ⟨?_, by decide, ?_⟩
  · rcases h4 with h4 | h4 <;> subst h4 <;> simp [prompt_endpoint, h1, h2, h3]
  · intro e he
    have htake : ("Error: Model returned empty response.").data.take 27 =
        ("Error generating response: ").data := by
      rw [he, String.data_append]
      have hl : ("Error generating response: ").data.length = 27 := by decide
      rw [← hl, List.take_left]
    exact absurd htake (by decide)

/-- Witness for C7: a concrete generation call returning the empty string
makes the endpoint answer with the fixed sentinel. -/
theorem empty_generation_sentinel_witness :
    prompt_endpoint (some ⟨fun _ => .ok []⟩)
        ⟨fun _ => .ok [], fun _ _ => .ok (some "")⟩ "q" =
      .ok ⟨"Error: Model returned empty response.", [],
        ⟨system_prompt, userPromptOf "" "q"⟩⟩ :=
  (empty_generation_sentinel ⟨fun _ => .ok []⟩
    ⟨fun _ => .ok [], fun _ _ => .ok (some "")⟩ "q" [] [] (some "")
    rfl rfl rfl (Or.inr rfl)).1

end TedRag
